import Mathlib

/-!
# BOOL_SWITCH (sgl-kernel/include/mamba/static_switch.h)

The header defines one macro:

    #define BOOL_SWITCH(COND, CONST_NAME, ...)
      [&] {
        if (COND) {
          constexpr bool CONST_NAME = true;
          return __VA_ARGS__();
        } else {
          constexpr bool CONST_NAME = false;
          return __VA_ARGS__();
        }
      }()

The trailing argument is a callable whose text may mention CONST_NAME, so it
is embedded as a function of the value bound to CONST_NAME: body true is
the copy compiled in the first branch, body false the copy compiled in the
second one.  Three readings of the same expansion are given: on values, on an
explicit program state, and with failure (Except).

The lambda has no trailing return type, so its result type is deduced and is
never a reference: when the callable returns a reference, the return
statement of the lambda copy-constructs the result.  BOOL_SWITCH_state and
BOOL_SWITCH_except read the expansion for callables that return a value or
nothing, where the return statement constructs nothing;
BOOL_SWITCH_state_ret and BOOL_SWITCH_except_ret read it for every callable,
the copy construction included.
-/

namespace StaticSwitch

/-! ## The macro on values -/

/-- Value-level reading of the expansion: the condition is a boolean value,
each branch binds CONST_NAME and returns the call of the callable. -/
def BOOL_SWITCH {α : Type} (COND : Bool) (body : Bool → α) : α :=
  if COND then
    let CONST_NAME : Bool := true
    body CONST_NAME
  else
    let CONST_NAME : Bool := false
    body CONST_NAME

/-! ## The macro on an explicit program state -/

/-- State-passing reading of the expansion for a callable that returns a
value or nothing: COND is an expression that yields a boolean and the state
it leaves behind; the callable copy of the taken branch runs on that state
and its result and state are returned. -/
def BOOL_SWITCH_state {σ α : Type} (COND : σ → Bool × σ)
    (body : Bool → σ → α × σ) (s : σ) : α × σ :=
  let r := COND s
  if r.1 then
    let CONST_NAME : Bool := true
    body CONST_NAME r.2
  else
    let CONST_NAME : Bool := false
    body CONST_NAME r.2

/-- A condition expression without side effects: it yields the value and
leaves the state alone. -/
def pureCond {σ : Type} (b : Bool) (s : σ) : Bool × σ := (b, s)

/-- A callable without side effects, seen as a state-passing callable. -/
def pureBody {σ α : Type} (f : Bool → α) (K : Bool) (s : σ) : α × σ := (f K, s)

/-! ## The macro with failing computations -/

/-- Failure reading of the expansion for a callable that returns a value or
nothing: an error raised by COND or by the callable copy of the taken branch
leaves the lambda unchanged; nothing in the expansion catches it. -/
def BOOL_SWITCH_except {ε α : Type} (COND : Except ε Bool)
    (body : Bool → Except ε α) : Except ε α :=
  match COND with
  | Except.error e => Except.error e
  | Except.ok c =>
    if c then
      let CONST_NAME : Bool := true
      body CONST_NAME
    else
      let CONST_NAME : Bool := false
      body CONST_NAME

/-! ## The by-value result of the lambda -/

/-- The return statement of the lambda on a program state.  The result of the
lambda is an object of the deduced type.  When the call of the callable is a
reference (isRef), that object is built by the copy constructor copyCtor of
the result type, which receives the referred value and acts on the state;
when the call yields a value or nothing, nothing is constructed. -/
def returnByValue {σ α : Type} (copyCtor : α → σ → α × σ) (isRef : Bool)
    (r : α × σ) : α × σ :=
  if isRef then copyCtor r.1 r.2 else r

/-- State-passing reading of the expansion for every callable: byRef K tells
whether the copy of the callable compiled with CONST_NAME = K returns a
reference, and each branch returns the call of its copy through the by-value
return of the lambda. -/
def BOOL_SWITCH_state_ret {σ α : Type} (copyCtor : α → σ → α × σ)
    (byRef : Bool → Bool) (COND : σ → Bool × σ)
    (body : Bool → σ → α × σ) (s : σ) : α × σ :=
  let r := COND s
  if r.1 then
    let CONST_NAME : Bool := true
    returnByValue copyCtor (byRef CONST_NAME) (body CONST_NAME r.2)
  else
    let CONST_NAME : Bool := false
    returnByValue copyCtor (byRef CONST_NAME) (body CONST_NAME r.2)

/-- The return statement of the lambda with failure: an error of the call
passes through; a reference result is copy-constructed, and the copy
constructor may fail; a value result is returned as it is. -/
def returnByValue_except {ε α : Type} (copyCtor : α → Except ε α)
    (isRef : Bool) (r : Except ε α) : Except ε α :=
  match r with
  | Except.error e => Except.error e
  | Except.ok v => if isRef then copyCtor v else Except.ok v

/-- Failure reading of the expansion for every callable. -/
def BOOL_SWITCH_except_ret {ε α : Type} (copyCtor : α → Except ε α)
    (byRef : Bool → Bool) (COND : Except ε Bool)
    (body : Bool → Except ε α) : Except ε α :=
  match COND with
  | Except.error e => Except.error e
  | Except.ok c =>
    if c then
      let CONST_NAME : Bool := true
      returnByValue_except copyCtor (byRef CONST_NAME) (body CONST_NAME)
    else
      let CONST_NAME : Bool := false
      returnByValue_except copyCtor (byRef CONST_NAME) (body CONST_NAME)

/-! ## Observation of runs -/

/-- What a run can be observed to do: evaluate the condition expression, call
the callable copy compiled with CONST_NAME = K, or copy-construct the result
of the lambda. -/
inductive Event where
  | evalCond : Event
  | call (K : Bool) : Event
  | copyResult : Event
  deriving DecidableEq

/-- Runs p on the program state and records the event e at the end of the
log; the log is invisible to p. -/
def logged {σ α : Type} (e : Event) (p : σ → α × σ)
    (st : σ × List Event) : α × (σ × List Event) :=
  let r := p st.1
  (r.1, (r.2, st.2 ++ [e]))

/-- The callable with each of its two copies recording its own call. -/
def loggedBody {σ α : Type} (body : Bool → σ → α × σ) (K : Bool) :
    σ × List Event → α × (σ × List Event) :=
  logged (Event.call K) (body K)

/-- The condition expression recording each of its evaluations. -/
def loggedCond {σ : Type} (COND : σ → Bool × σ) :
    σ × List Event → Bool × (σ × List Event) :=
  logged Event.evalCond COND

/-- The copy constructor recording each of its runs. -/
def loggedCopy {σ α : Type} (copyCtor : α → σ → α × σ) (v : α) :
    σ × List Event → α × (σ × List Event) :=
  logged Event.copyResult (copyCtor v)

/-- A copy constructor that counts its runs in the state. -/
def countingCopy (v : Nat) (copies : Nat) : Nat × Nat := (v, copies + 1)

/-- A callable that returns a reference to an object holding 9 and leaves the
count of copies alone. -/
def refCallable (_K : Bool) (copies : Nat) : Nat × Nat := (9, copies)

/-! ## Shared lemmas -/

theorem BOOL_SWITCH_apply {α : Type} (b : Bool) (body : Bool → α) :
    BOOL_SWITCH b body = body b := by
  cases b <;> rfl

theorem BOOL_SWITCH_state_apply {σ α : Type} (COND : σ → Bool × σ)
    (body : Bool → σ → α × σ) (s : σ) :
    BOOL_SWITCH_state COND body s = body (COND s).1 (COND s).2 := by
  unfold BOOL_SWITCH_state
  cases h : (COND s).1 <;> simp [h]

theorem BOOL_SWITCH_except_ok {ε α : Type} (b : Bool)
    (body : Bool → Except ε α) :
    BOOL_SWITCH_except (Except.ok b) body = body b := by
  cases b <;> rfl

theorem BOOL_SWITCH_except_error {ε α : Type} (e : ε)
    (body : Bool → Except ε α) :
    BOOL_SWITCH_except (Except.error e) body = Except.error e := rfl

/-- The state reading restricted to effect-free condition and callable is the
value reading. -/
theorem BOOL_SWITCH_state_pure {σ α : Type} (b : Bool) (f : Bool → α) (s : σ) :
    BOOL_SWITCH_state (pureCond b) (pureBody f) s = (BOOL_SWITCH b f, s) := by
  cases b <;> rfl

/-- The failure reading restricted to a condition and a callable that do not
fail is the value reading. -/
theorem BOOL_SWITCH_except_pure {ε α : Type} (b : Bool) (f : Bool → α) :
    BOOL_SWITCH_except (Except.ok b) (fun K => (Except.ok (f K) : Except ε α))
      = Except.ok (BOOL_SWITCH b f) := by
  cases b <;> rfl

/-- The log of an observed run: the evaluation of the condition, then the
call of the copy it selects. -/
theorem BOOL_SWITCH_state_log {σ α : Type} (COND : σ → Bool × σ)
    (body : Bool → σ → α × σ) (s : σ) (log : List Event) :
    (BOOL_SWITCH_state (loggedCond COND) (loggedBody body) (s, log)).2.2
      = log ++ [Event.evalCond, Event.call (COND s).1] := by
  rw [BOOL_SWITCH_state_apply]
  simp [loggedCond, loggedBody, logged]

/-- Observation does not change what a run computes. -/
theorem BOOL_SWITCH_state_erase {σ α : Type} (COND : σ → Bool × σ)
    (body : Bool → σ → α × σ) (s : σ) (log : List Event) :
    ((BOOL_SWITCH_state (loggedCond COND) (loggedBody body) (s, log)).1,
      (BOOL_SWITCH_state (loggedCond COND) (loggedBody body) (s, log)).2.1)
      = BOOL_SWITCH_state COND body s := by
  rw [BOOL_SWITCH_state_apply, BOOL_SWITCH_state_apply]
  simp [loggedCond, loggedBody, logged]

theorem BOOL_SWITCH_state_ret_apply {σ α : Type} (copyCtor : α → σ → α × σ)
    (byRef : Bool → Bool) (COND : σ → Bool × σ) (body : Bool → σ → α × σ) (s : σ) :
    BOOL_SWITCH_state_ret copyCtor byRef COND body s
      = returnByValue copyCtor (byRef (COND s).1) (body (COND s).1 (COND s).2) := by
  unfold BOOL_SWITCH_state_ret
  cases h : (COND s).1 <;> simp [h]

/-- For callables that return a value or nothing, the reading for every
callable is the plain state reading. -/
theorem BOOL_SWITCH_state_ret_byValue {σ α : Type} (copyCtor : α → σ → α × σ)
    (COND : σ → Bool × σ) (body : Bool → σ → α × σ) (s : σ) :
    BOOL_SWITCH_state_ret copyCtor (fun _ => false) COND body s
      = BOOL_SWITCH_state COND body s := by
  rw [BOOL_SWITCH_state_ret_apply, BOOL_SWITCH_state_apply]
  rfl

theorem BOOL_SWITCH_except_ret_ok {ε α : Type} (copyCtor : α → Except ε α)
    (byRef : Bool → Bool) (b : Bool) (body : Bool → Except ε α) :
    BOOL_SWITCH_except_ret copyCtor byRef (Except.ok b) body
      = returnByValue_except copyCtor (byRef b) (body b) := by
  cases b <;> rfl

theorem returnByValue_except_value {ε α : Type} (copyCtor : α → Except ε α)
    (r : Except ε α) : returnByValue_except copyCtor false r = r := by
  cases r <;> rfl

/-- For callables that return a value or nothing, the failure reading for
every callable is the plain failure reading. -/
theorem BOOL_SWITCH_except_ret_byValue {ε α : Type} (copyCtor : α → Except ε α)
    (COND : Except ε Bool) (body : Bool → Except ε α) :
    BOOL_SWITCH_except_ret copyCtor (fun _ => false) COND body
      = BOOL_SWITCH_except COND body := by
  cases COND with
  | error e => rfl
  | ok b =>
    rw [BOOL_SWITCH_except_ret_ok, BOOL_SWITCH_except_ok, returnByValue_except_value]

/-- The log of an observed run of any callable: the evaluation of the
condition, the call of the copy it selects, and the copy construction of the
result when that copy returns a reference. -/
theorem BOOL_SWITCH_state_ret_log {σ α : Type} (copyCtor : α → σ → α × σ)
    (byRef : Bool → Bool) (COND : σ → Bool × σ) (body : Bool → σ → α × σ)
    (s : σ) (log : List Event) :
    (BOOL_SWITCH_state_ret (loggedCopy copyCtor) byRef (loggedCond COND)
        (loggedBody body) (s, log)).2.2
      = log ++ [Event.evalCond, Event.call (COND s).1]
          ++ (if byRef (COND s).1 then [Event.copyResult] else []) := by
  rw [BOOL_SWITCH_state_ret_apply]
  cases h : byRef (COND s).1 <;>
    simp [loggedCond, loggedBody, loggedCopy, logged, returnByValue, h]

/-- The condition is evaluated once in the run of any callable, a callable
that returns a reference included. -/
theorem BOOL_SWITCH_state_ret_cond_count {σ α : Type} (copyCtor : α → σ → α × σ)
    (byRef : Bool → Bool) (COND : σ → Bool × σ) (body : Bool → σ → α × σ)
    (s : σ) (log : List Event) :
    List.count Event.evalCond
        (BOOL_SWITCH_state_ret (loggedCopy copyCtor) byRef (loggedCond COND)
          (loggedBody body) (s, log)).2.2
      = List.count Event.evalCond log + 1 := by
  rw [BOOL_SWITCH_state_ret_log]
  cases byRef (COND s).1 <;> simp [List.count_append, List.count_cons]

/-- A concrete run on a counter: COND reads the counter, tests it for
evenness and increments it; the callable returns ten or a hundred times the
counter it sees.  From 4 the condition is true and the callable sees 5. -/
theorem BOOL_SWITCH_state_counter_run :
    BOOL_SWITCH_state (fun n : Nat => (n % 2 == 0, n + 1))
        (fun K n => (if K then n * 10 else n * 100, n)) 4 = (50, 5)
    ∧ BOOL_SWITCH_state (fun n : Nat => (n % 2 == 0, n + 1))
        (fun K n => (if K then n * 10 else n * 100, n)) 7 = (800, 8) := by
  constructor <;> rfl

/-- A concrete failing run: only the copy for false fails, and it shows only
when the condition is false. -/
theorem BOOL_SWITCH_except_run :
    BOOL_SWITCH_except (Except.ok true)
        (fun K => if K then Except.ok (1 : Nat) else Except.error "bad") = Except.ok 1
    ∧ BOOL_SWITCH_except (Except.ok false)
        (fun K => if K then Except.ok (1 : Nat) else Except.error "bad")
        = Except.error "bad" := by
  constructor <;> rfl

/-! ## The dispatcher on values -/

/-- C1: for both values of the condition, BOOL_SWITCH returns the result of
the copy of the callable compiled with CONST_NAME equal to that value: the
copy for true when the condition is true, the copy for false when it is
false.  With a callable returning 1 when CONST_NAME is true and 2 otherwise,
the condition true gives 1 and the condition false gives 2. -/
theorem BOOL_SWITCH_selects_instantiation {α : Type} (f : Bool → α) :
    BOOL_SWITCH true f = f true
    ∧ BOOL_SWITCH false f = f false
    ∧ BOOL_SWITCH true (fun K => if K then (1 : Int) else 2) = 1
    ∧ BOOL_SWITCH false (fun K => if K then (1 : Int) else 2) = 2 :=
  ⟨rfl, rfl, rfl, rfl⟩

/-- C6: BOOL_SWITCH is direct application.  When the copy of the callable for
true computes g true and the copy for false computes g false, the dispatcher
equals g b for every condition value b; and a callable whose result does not
depend on CONST_NAME gives the same result for both condition values. -/
theorem BOOL_SWITCH_eq_direct_application {α : Type} (f g : Bool → α)
    (b : Bool) (c : α) (ht : f true = g true) (hf : f false = g false) :
    BOOL_SWITCH b f = g b
    ∧ BOOL_SWITCH true (fun _ => c) = BOOL_SWITCH false (fun _ => c) := by
  refine ⟨?_, rfl⟩
  rw [BOOL_SWITCH_apply]
  cases b
  · exact hf
  · exact ht

theorem BOOL_SWITCH_eq_direct_application_witness :
    ((if true then (10 : Nat) else 20) = cond true 10 20)
    ∧ ((if false then (10 : Nat) else 20) = cond false 10 20)
    ∧ BOOL_SWITCH false (fun K : Bool => if K then (10 : Nat) else 20)
        = (fun K : Bool => cond K 10 20) false
    ∧ BOOL_SWITCH true (fun _ => (7 : Nat)) = BOOL_SWITCH false (fun _ => (7 : Nat)) :=
  ⟨by decide, by decide,
    BOOL_SWITCH_eq_direct_application (fun K : Bool => if K then (10 : Nat) else 20)
      (fun K : Bool => cond K 10 20) false 7 (by decide) (by decide)⟩

/-- C8: nested dispatch composes.  For every pair of condition values a and b
and every callable h over two compile-time booleans, the switch on a around
the switch on b returns the result of the one copy of h with A = a and
B = b, and the other nesting order gives the same result; this also holds
on an explicit state when the two conditions have no side effects and h
does. -/
theorem BOOL_SWITCH_nested {σ α : Type} (a b : Bool) (h : Bool → Bool → α)
    (hs : Bool → Bool → σ → α × σ) (s : σ) :
    BOOL_SWITCH a (fun A => BOOL_SWITCH b (fun B => h A B)) = h a b
    ∧ BOOL_SWITCH a (fun A => BOOL_SWITCH b (fun B => h A B))
        = BOOL_SWITCH b (fun B => BOOL_SWITCH a (fun A => h A B))
    ∧ BOOL_SWITCH_state (pureCond a)
        (fun A => BOOL_SWITCH_state (pureCond b) (fun B => hs A B)) s = hs a b s
    ∧ BOOL_SWITCH_state (pureCond a)
        (fun A => BOOL_SWITCH_state (pureCond b) (fun B => hs A B)) s
        = BOOL_SWITCH_state (pureCond b)
            (fun B => BOOL_SWITCH_state (pureCond a) (fun A => hs A B)) s := by
  cases a <;> cases b <;> exact ⟨rfl, rfl, rfl, rfl⟩

/-! ## The dispatcher on a program state -/

/-- C2: one evaluation of BOOL_SWITCH evaluates COND exactly once, whichever
branch is taken.  In an observed run the number of recorded evaluations of
the condition grows by exactly one, the observed run computes what the plain
run computes, and with a callable that leaves the state alone the final state
is the state after one evaluation of COND. -/
theorem BOOL_SWITCH_cond_evaluated_once {σ α : Type} (COND : σ → Bool × σ)
    (body : Bool → σ → α × σ) (f : Bool → α) (s : σ) (log : List Event) :
    List.count Event.evalCond
        (BOOL_SWITCH_state (loggedCond COND) (loggedBody body) (s, log)).2.2
      = List.count Event.evalCond log + 1
    ∧ ((BOOL_SWITCH_state (loggedCond COND) (loggedBody body) (s, log)).1,
        (BOOL_SWITCH_state (loggedCond COND) (loggedBody body) (s, log)).2.1)
      = BOOL_SWITCH_state COND body s
    ∧ (BOOL_SWITCH_state COND (pureBody f) s).2 = (COND s).2 := by
  refine ⟨?_, BOOL_SWITCH_state_erase COND body s log, ?_⟩
  · rw [BOOL_SWITCH_state_log]
    simp [List.count_append, List.count_cons]
  · rw [BOOL_SWITCH_state_apply]
    rfl

/-- The input that refutes C3 as stated: a condition value true and a callable
that returns a reference and leaves the count of copies at 0.  The selected
copy of the callable ends with 0 copies, the dispatcher ends with 1: the copy
construction is an effect of the expansion itself. -/
theorem BOOL_SWITCH_own_effect_counterexample :
    BOOL_SWITCH_state_ret countingCopy (fun _ => true) (pureCond true) refCallable 0
      = (9, 1)
    ∧ refCallable true 0 = (9, 0)
    ∧ (BOOL_SWITCH_state_ret countingCopy (fun _ => true) (pureCond true)
        refCallable 0).2 ≠ (refCallable true 0).2 := by
  decide

/-- C3, amended: with a condition value b, the result and final state of
BOOL_SWITCH are those of one run of the copy of the callable for
CONST_NAME = b on the incoming state, passed through the by-value return of
the lambda.  When that copy returns a value or nothing, the dispatcher adds
no effect: the outcome is exactly the outcome of the copy.  When it returns a
reference, the one effect added is one copy construction of the result after
the call.  The copy for the other boolean value is never run, whatever it is
and whatever it returns, and an observed run records exactly one call, the
call of the copy for b, followed by the copy construction in the reference
case only. -/
theorem BOOL_SWITCH_effect_is_call_then_copy {σ α : Type}
    (copyCtor : α → σ → α × σ) (byRef : Bool → Bool) (b : Bool)
    (body : Bool → σ → α × σ) (other : σ → α × σ) (otherRef : Bool)
    (s : σ) (log : List Event) :
    BOOL_SWITCH_state_ret copyCtor byRef (pureCond b) body s
      = returnByValue copyCtor (byRef b) (body b s)
    ∧ BOOL_SWITCH_state_ret copyCtor (Function.update byRef b false) (pureCond b) body s
      = body b s
    ∧ BOOL_SWITCH_state_ret copyCtor (Function.update byRef b true) (pureCond b) body s
      = copyCtor (body b s).1 (body b s).2
    ∧ BOOL_SWITCH_state_ret copyCtor (Function.update byRef (!b) otherRef) (pureCond b)
        (Function.update body (!b) other) s
      = BOOL_SWITCH_state_ret copyCtor byRef (pureCond b) body s
    ∧ (BOOL_SWITCH_state_ret (loggedCopy copyCtor) byRef (pureCond b)
        (loggedBody body) (s, log)).2.2
      = log ++ [Event.call b] ++ (if byRef b then [Event.copyResult] else []) := by
  refine ⟨?_, ?_, ?_, ?_, ?_⟩
  · rw [BOOL_SWITCH_state_ret_apply]; rfl
  · rw [BOOL_SWITCH_state_ret_apply]
    simp [pureCond, returnByValue]
  · rw [BOOL_SWITCH_state_ret_apply]
    simp [pureCond, returnByValue]
  · rw [BOOL_SWITCH_state_ret_apply, BOOL_SWITCH_state_ret_apply]
    cases b <;> simp [pureCond, Function.update]
  · rw [BOOL_SWITCH_state_ret_apply]
    cases h : byRef b <;>
      simp [pureCond, loggedBody, loggedCopy, logged, returnByValue, h]

/-- The input that refutes C7 as stated: the condition adds 10 to the state,
the callable returns a reference and adds 100, the copy constructor of the
result adds 1.  The effect of COND followed by the effect of the selected
copy ends in 110, the dispatcher ends in 111. -/
theorem BOOL_SWITCH_final_state_counterexample :
    BOOL_SWITCH_state_ret (fun (v : Nat) (n : Nat) => (v, n + 1)) (fun _ => true)
        (fun n => (n == 0, n + 10)) (fun _ n => (9, n + 100)) 0 = (9, 111)
    ∧ (fun (_ : Bool) (n : Nat) => ((9 : Nat), n + 100))
        ((fun (n : Nat) => (n == 0, n + 10)) 0).1
        ((fun (n : Nat) => (n == 0, n + 10)) 0).2 = (9, 110)
    ∧ (BOOL_SWITCH_state_ret (fun (v : Nat) (n : Nat) => (v, n + 1)) (fun _ => true)
        (fun n => (n == 0, n + 10)) (fun _ n => (9, n + 100)) 0).2 ≠ 110 := by
  decide

/-- C7, amended: the condition is evaluated before the callable is invoked.
The branch is chosen from the value COND returns in the incoming state and
the selected copy of the callable runs on the state COND leaves.  When that
copy returns a value or nothing, the final state is the effect of COND
followed by the effect of that copy; when it returns a reference, the copy
construction of the result follows as a third step.  An observed run records
the evaluation of COND first, the call second, and the copy construction
last, in the reference case only. -/
theorem BOOL_SWITCH_cond_then_call_then_copy {σ α : Type}
    (copyCtor : α → σ → α × σ) (byRef : Bool → Bool) (COND : σ → Bool × σ)
    (body : Bool → σ → α × σ) (s : σ) (log : List Event) :
    BOOL_SWITCH_state_ret copyCtor byRef COND body s
      = returnByValue copyCtor (byRef (COND s).1) (body (COND s).1 (COND s).2)
    ∧ BOOL_SWITCH_state_ret copyCtor (Function.update byRef (COND s).1 false) COND body s
      = body (COND s).1 (COND s).2
    ∧ BOOL_SWITCH_state_ret copyCtor (Function.update byRef (COND s).1 true) COND body s
      = copyCtor (body (COND s).1 (COND s).2).1 (body (COND s).1 (COND s).2).2
    ∧ (BOOL_SWITCH_state_ret (loggedCopy copyCtor) byRef (loggedCond COND)
        (loggedBody body) (s, log)).2.2
      = log ++ [Event.evalCond, Event.call (COND s).1]
          ++ (if byRef (COND s).1 then [Event.copyResult] else []) := by
  refine ⟨BOOL_SWITCH_state_ret_apply copyCtor byRef COND body s, ?_, ?_,
    BOOL_SWITCH_state_ret_log copyCtor byRef COND body s log⟩
  · rw [BOOL_SWITCH_state_ret_apply]
    simp [returnByValue]
  · rw [BOOL_SWITCH_state_ret_apply]
    simp [returnByValue]

/-! ## The dispatcher with failing computations -/

/-- The input that refutes C4 as stated: a condition value true, a callable
that returns a reference to 9 without failing, and a copy constructor that
fails.  The dispatcher fails although the selected copy of the callable does
not. -/
theorem BOOL_SWITCH_own_failure_counterexample :
    BOOL_SWITCH_except_ret (fun _ : Nat => (Except.error 1 : Except Nat Nat))
        (fun _ => true) (Except.ok true) (fun _ => Except.ok 9) = Except.error 1
    ∧ (fun _ : Bool => (Except.ok 9 : Except Nat Nat)) true = Except.ok 9
    ∧ ¬ (BOOL_SWITCH_except_ret (fun _ : Nat => (Except.error 1 : Except Nat Nat))
          (fun _ => true) (Except.ok true) (fun _ => Except.ok 9) = Except.error 1
        ↔ (fun _ : Bool => (Except.ok 9 : Except Nat Nat)) true = Except.error 1) := by
  refine ⟨rfl, rfl, ?_⟩
  intro h
  have h1 := h.mp rfl
  cases h1

/-- C4, amended: for every condition value b the outcome of BOOL_SWITCH is the
outcome of the copy of the callable selected by b, passed through the
by-value return of the lambda.  When that copy returns a value or nothing,
the dispatcher fails exactly when the copy fails, with the same error.  A
failure of the selected copy is always the failure of the dispatcher.  When
the selected copy returns a reference without failing, the outcome is that of
the copy construction of the result, which may fail.  Whatever the other copy
would do, a failure included, never shows. -/
theorem BOOL_SWITCH_failure_is_call_or_copy {ε α : Type}
    (copyCtor : α → Except ε α) (byRef : Bool → Bool) (b : Bool)
    (body : Bool → Except ε α) (other : Except ε α) (otherRef : Bool)
    (e : ε) (v : α) :
    BOOL_SWITCH_except_ret copyCtor byRef (Except.ok b) body
      = returnByValue_except copyCtor (byRef b) (body b)
    ∧ BOOL_SWITCH_except_ret copyCtor (Function.update byRef b false) (Except.ok b) body
      = body b
    ∧ (BOOL_SWITCH_except_ret copyCtor (Function.update byRef b false) (Except.ok b) body
        = Except.error e ↔ body b = Except.error e)
    ∧ BOOL_SWITCH_except_ret copyCtor byRef (Except.ok b)
        (Function.update body b (Except.error e)) = Except.error e
    ∧ BOOL_SWITCH_except_ret copyCtor (Function.update byRef b true) (Except.ok b)
        (Function.update body b (Except.ok v)) = copyCtor v
    ∧ BOOL_SWITCH_except_ret copyCtor (Function.update byRef (!b) otherRef) (Except.ok b)
        (Function.update body (!b) other)
      = BOOL_SWITCH_except_ret copyCtor byRef (Except.ok b) body
    ∧ BOOL_SWITCH_except_ret copyCtor (Function.update byRef (!b) otherRef) (Except.ok b)
        (Function.update body (!b) (Except.error e))
      = BOOL_SWITCH_except_ret copyCtor byRef (Except.ok b) body := by
  have hv : BOOL_SWITCH_except_ret copyCtor (Function.update byRef b false)
      (Except.ok b) body = body b := by
    rw [BOOL_SWITCH_except_ret_ok]
    simp [returnByValue_except_value]
  refine ⟨BOOL_SWITCH_except_ret_ok copyCtor byRef b body, hv, ?_, ?_, ?_, ?_, ?_⟩
  · rw [hv]
  · rw [BOOL_SWITCH_except_ret_ok]
    simp [returnByValue_except]
  · rw [BOOL_SWITCH_except_ret_ok]
    simp [returnByValue_except]
  · rw [BOOL_SWITCH_except_ret_ok, BOOL_SWITCH_except_ret_ok]
    cases b <;> simp [Function.update]
  · rw [BOOL_SWITCH_except_ret_ok, BOOL_SWITCH_except_ret_ok]
    cases b <;> simp [Function.update]

end StaticSwitch
